import Mathlib

/-!
Shallow embedding of the `infimobile_user_log_monitor` repository
(`log_server.py`, `log_dashboard.py`, `insert_test_log.py`).

Conventions of the embedding:

* Timestamps are natural numbers (seconds); `pd.Series.dt.floor("h")` is
  `floorHour` (round down to a multiple of 3600).
* The `received_at` TEXT column is abstracted by how `pd.to_datetime`
  treats its value: `TimeStr.valid t` is a string parsing to instant `t`;
  `TimeStr.natLike` is a string such as `""` that `pd.to_datetime` maps to
  `NaT` even with `errors="raise"`; `TimeStr.garbage` is a non-empty
  unparseable string, which raises unless `errors="coerce"` is given.
  A missing value (SQL NULL) is `none` and always becomes `NaT`.
* `sklearn.ensemble.IsolationForest(...).fit_predict` over the one-column
  frame `grouped[["log_count"]]` is abstracted as an explicit argument
  `fp : List Nat → List Int` (a label per row, `-1` = anomalous): the
  repository code places no constraint on its output, and in the
  dashboard (`IsolationForest(contamination=0.2)`, no `random_state`)
  the function drawn depends on ambient randomness the caller does not
  control, so pipeline properties are stated over this argument.
* `pandas.groupby(col).size()` sorts the distinct keys ascending and
  drops `NaT` keys; `groupByHour` mirrors this on the list of
  (already floored, non-`NaT`) hours.
-/

namespace LogMonitor

/-- Abstraction of a `received_at` TEXT value by its `pd.to_datetime`
behaviour: parses to an instant, coerces to `NaT` even in strict mode
(e.g. the empty string), or raises in strict mode (unparseable text). -/
inductive TimeStr where
  | valid (t : Nat)
  | natLike
  | garbage
deriving DecidableEq

/-- A row of the `logs` table as both scripts read it (`SELECT * FROM logs`).
The server schema has no `user` column; rows from that database carry
`none` there. -/
structure LogRow where
  id : Nat
  type : Option String
  message : Option String
  device : Option String
  android_version : Option String
  timestamp : Option String
  received_at : Option TimeStr
  user : Option String
deriving DecidableEq

/-- `floor("h")` on an instant: round down to the enclosing hour. -/
def floorHour (t : Nat) : Nat := t / 3600 * 3600

/-- Insert into a `≤`-sorted list of hours (helper for the sorted groupby). -/
def insertSorted (x : Nat) : List Nat → List Nat
  | [] => [x]
  | y :: ys => if x ≤ y then x :: y :: ys else y :: insertSorted x ys

/-- Ascending sort of the distinct group keys, as `groupby` returns them. -/
def sortNat (l : List Nat) : List Nat := l.foldr insertSorted []

/-- `df.groupby("hour").size().reset_index(name="log_count")`: one
`(hour, log_count)` row per distinct hour present, keys ascending. -/
def groupByHour (hours : List Nat) : List (Nat × Nat) :=
  (sortNat hours.dedup).map (fun h => (h, hours.count h))

theorem perm_insertSorted (x : Nat) (l : List Nat) :
    List.Perm (insertSorted x l) (x :: l) := by
  induction l with
  | nil => simp [insertSorted]
  | cons y ys ih =>
      by_cases h : x ≤ y
      · simp [insertSorted, h]
      · simp only [insertSorted, if_neg h]
        exact (ih.cons y).trans (List.Perm.swap x y ys)

theorem perm_sortNat (l : List Nat) : List.Perm (sortNat l) l := by
  induction l with
  | nil => simp [sortNat]
  | cons x xs ih =>
      simpa [sortNat] using (perm_insertSorted x (sortNat xs)).trans (ih.cons x)

theorem mem_groupByHour {hours : List Nat} {p : Nat × Nat} :
    p ∈ groupByHour hours ↔ p.1 ∈ hours ∧ p.2 = hours.count p.1 := by
  unfold groupByHour
  rw [List.mem_map]
  constructor
  · rintro ⟨h, hmem, rfl⟩
    have : h ∈ hours.dedup := (perm_sortNat hours.dedup).mem_iff.mp hmem
    exact ⟨List.mem_dedup.mp this, rfl⟩
  · rintro ⟨hmem, hcnt⟩
    refine ⟨p.1, (perm_sortNat hours.dedup).mem_iff.mpr (List.mem_dedup.mpr hmem), ?_⟩
    exact Prod.ext rfl hcnt.symm

theorem sum_counts_groupByHour (hours : List Nat) :
    ((groupByHour hours).map (fun p => p.2)).sum = hours.length := by
  unfold groupByHour
  rw [List.map_map]
  have hperm : List.Perm ((sortNat hours.dedup).map (fun h => hours.count h))
      (hours.dedup.map (fun h => hours.count h)) :=
    (perm_sortNat hours.dedup).map _
  calc ((sortNat hours.dedup).map
          ((fun p : Nat × Nat => p.2) ∘ fun h => (h, hours.count h))).sum
      = ((sortNat hours.dedup).map (fun h => hours.count h)).sum := rfl
    _ = (hours.dedup.map (fun h => hours.count h)).sum := hperm.sum_eq
    _ = hours.length := List.sum_map_count_dedup_eq_length hours

theorem count_pos_of_mem_groupByHour {hours : List Nat} {p : Nat × Nat}
    (h : p ∈ groupByHour hours) : 1 ≤ p.2 := by
  rcases mem_groupByHour.mp h with ⟨hmem, hcnt⟩
  exact hcnt ▸ List.count_pos_iff.mpr hmem

/-! ### Dashboard: `log_dashboard.py` -/

/-- A row after `load_logs` has cleaned it: `received_at` parsed and
non-null, `user` defaulted. -/
structure CleanRow where
  id : Nat
  type : Option String
  message : Option String
  device : Option String
  android_version : Option String
  timestamp : Option String
  received_at : Nat
  user : String
deriving DecidableEq

/-- `df["user"].fillna("unknown").replace("", "unknown")`: a null or
empty `user` becomes the literal `"unknown"`. -/
def fixUser : Option String → String
  | none => "unknown"
  | some s => if s = "" then "unknown" else s

/-- One row of `load_logs`: `pd.to_datetime(..., errors="coerce")` turns
every non-parsing `received_at` into `NaT`, `dropna` removes the row; the
`user` fix applies to the surviving rows. -/
def cleanRow (r : LogRow) : Option CleanRow :=
  match r.received_at with
  | some (.valid t) =>
      some ⟨r.id, r.type, r.message, r.device, r.android_version,
            r.timestamp, t, fixUser r.user⟩
  | _ => none

/-- `load_logs` from `log_dashboard.py`: read every row, coerce
`received_at`, drop the rows that failed to parse, default `user`. -/
def load_logs (rows : List LogRow) : List CleanRow := rows.filterMap cleanRow

/-- Whether `needle` occurs as a contiguous run inside `hay`. -/
def listHasRun (needle : List Char) : List Char → Bool
  | [] => needle.isEmpty
  | c :: t => needle.isPrefixOf (c :: t) || listHasRun needle t

/-- Case-insensitive substring test, `Series.str.contains(kw, case=False,
na=False)`: a null cell never matches. -/
def strContainsCI (hay : Option String) (needle : String) : Bool :=
  match hay with
  | none => false
  | some s => listHasRun needle.toLower.data s.toLower.data

/-- The dashboard search box: keep rows whose message, user or device
contains the keyword (case-insensitively); an empty keyword is a no-op. -/
def searchLogs (kw : String) (rows : List CleanRow) : List CleanRow :=
  if kw = "" then rows
  else rows.filter (fun r =>
    strContainsCI r.message kw || strContainsCI (some r.user) kw ||
      strContainsCI r.device kw)

/-- The `Filter by Type` selectbox: `none` is the `ALL` choice. -/
def filterByType (sel : Option String) (rows : List CleanRow) : List CleanRow :=
  match sel with
  | none => rows
  | some t => rows.filter (fun r => r.type == some t)

/-- The `Filter by User` selectbox: `none` is the `ALL` choice. -/
def filterByUser (sel : Option String) (rows : List CleanRow) : List CleanRow :=
  match sel with
  | none => rows
  | some u => rows.filter (fun r => r.user == u)

/-- The date-range filter: `received_at.between(start, end)`, both ends
inclusive; `none` when the widget does not hold a two-element range. -/
def filterByDateRange (range : Option (Nat × Nat)) (rows : List CleanRow) :
    List CleanRow :=
  match range with
  | none => rows
  | some (s, e) => rows.filter (fun r => s ≤ r.received_at && r.received_at ≤ e)

/-- The record set every dashboard widget (table, charts, aggregation,
CSV export) consumes: `load_logs` followed by search, type, user and
date-range filters in script order. -/
def dashboardView (kw : String) (ty usr : Option String)
    (range : Option (Nat × Nat)) (rows : List LogRow) : List CleanRow :=
  filterByDateRange range (filterByUser usr (filterByType ty
    (searchLogs kw (load_logs rows))))

/-- `detect_anomalies` from `log_dashboard.py`: floor `received_at` to the
hour, group, and if at least 5 windows exist label them with the model
`fp` (abstracting `IsolationForest(contamination=0.2).fit_predict`),
returning the grouped series and the `(hour, log_count)` rows labelled
`-1`; with fewer than 5 windows the anomaly frame stays empty. -/
def detect_anomalies (fp : List Nat → List Int) (rows : List CleanRow) :
    List (Nat × Nat) × List (Nat × Nat) :=
  let grouped := groupByHour (rows.map (fun r => floorHour r.received_at))
  if grouped.length < 5 then (grouped, [])
  else
    let labels := fp (grouped.map (fun p => p.2))
    (grouped, ((grouped.zip labels).filter (fun q => q.2 == -1)).map
      (fun q => q.1))

/-! ### Server: `log_server.py` -/

/-- The JSON body of a `POST /log` request, field access by `dict.get`
(absent keys give `None`). -/
structure Submission where
  type : Option String
  message : Option String
  device : Option String
  android_version : Option String
  timestamp : Option String
  received_at : Option String
deriving DecidableEq

/-- A row as `save_log_to_db` inserts it (the server schema: no `user`
column, `id` auto-assigned by SQLite and omitted here). -/
structure StoredRow where
  type : Option String
  message : Option String
  device : Option String
  android_version : Option String
  timestamp : String
  received_at : Option String
deriving DecidableEq

/-- Python `str` applied to `data.get("timestamp")`: `None` prints as the
four-character string `"None"`. -/
def pyStr : Option String → String
  | none => "None"
  | some s => s

/-- `save_log_to_db`: append one row built from `data.get(...)` —
missing fields are stored as NULL, no field is validated. -/
def save_log_to_db (store : List StoredRow) (data : Submission) :
    List StoredRow :=
  store ++ [⟨data.type, data.message, data.device, data.android_version,
             pyStr data.timestamp, data.received_at⟩]

/-- Response of the `/log` endpoint: `200 {"status": "success"}` or the
catch-all `500 {"status": "error", ...}`. -/
inductive IngestResponse where
  | success200
  | error500
deriving DecidableEq

/-- `receive_log`, the `POST /log` handler: parse the body (`none` models
a body `request.get_json()` rejects, whose exception the handler turns
into a 500), stamp `received_at` with the server clock `now`, insert,
acknowledge. No field is checked. -/
def receive_log (now : String) (store : List StoredRow)
    (body : Option Submission) : List StoredRow × IngestResponse :=
  match body with
  | none => (store, .error500)
  | some data =>
      let stamped := { data with received_at := some now }
      (save_log_to_db store stamped, .success200)

/-- The three bodies the `/anomaly` handler can return itself:
`404 {"error": "No logs found"}`, `200 {"message": "No API errors or
crashes found."}`, and `200 {"anomalies": ...}` carrying the
`(hour, log_count)` rows labelled `-1`. -/
inductive AnomalyResponse where
  | errNoLogs
  | msgNoErrorTypes
  | anomalies (xs : List (Nat × Nat))
deriving DecidableEq

/-- Whether a response is an error to an HTTP client: only the 404
`errNoLogs` body (the 500 from an uncaught exception is modelled by
`Except.error`, separately). -/
def isErrorResponse : AnomalyResponse → Bool
  | .errNoLogs => true
  | _ => false

/-- `df[df["type"].isin(["API_ERROR", "CRASH"])]`: a NULL type is not in
the list. -/
def serverFilterTypes (logs : List LogRow) : List LogRow :=
  logs.filter (fun r =>
    match r.type with
    | some t => t == "API_ERROR" || t == "CRASH"
    | none => false)

/-- `pd.to_datetime(df["received_at"]).dt.floor("H")` followed by the
`groupby`, in the server's strict mode: an unparseable cell raises
(the handler has no `try`, so Flask answers 500), NULL and NaT-like
cells become `NaT` and are dropped by `groupby`, valid cells are floored
to the hour. -/
def serverParseHours : List LogRow → Except String (List Nat)
  | [] => .ok []
  | r :: rs =>
      match r.received_at with
      | some .garbage => .error "unparseable received_at"
      | some (.valid t) => (serverParseHours rs).map (fun hs => floorHour t :: hs)
      | some .natLike => serverParseHours rs
      | none => serverParseHours rs

/-- The `GET /anomaly` handler: 404 on an empty store; a 200 message when
no `API_ERROR`/`CRASH` rows exist; otherwise group the error rows by hour
and return the rows the model `fp` labels `-1` — with no minimum-window
check before fitting. `Except.error` is the uncaught exception of the
strict datetime parse. -/
def anomaly_endpoint (fp : List Nat → List Int) (logs : List LogRow) :
    Except String AnomalyResponse :=
  if logs.isEmpty then .ok .errNoLogs
  else
    let df := serverFilterTypes logs
    if df.isEmpty then .ok .msgNoErrorTypes
    else
      (serverParseHours df).map (fun hours =>
        let grouped := groupByHour hours
        let labels := fp (grouped.map (fun p => p.2))
        .anomalies (((grouped.zip labels).filter (fun q => q.2 == -1)).map
          (fun q => q.1)))

/-! ### Concrete sample data (used by witnesses and counterexamples) -/

/-- A log row with only `id`, `type` and `received_at` set. -/
def mkRow (i : Nat) (ty : Option String) (ra : Option TimeStr) : LogRow :=
  ⟨i, ty, none, none, none, none, ra, none⟩

/-- Two `CRASH` rows in two distinct hours: a two-window series. -/
def demoLogs2 : List LogRow :=
  [mkRow 1 (some "CRASH") (some (.valid 0)),
   mkRow 2 (some "CRASH") (some (.valid 3600))]

/-- One valid `CRASH` row together with one whose `received_at` text does
not parse. -/
def demoMixed : List LogRow :=
  [mkRow 1 (some "CRASH") (some (.valid 0)),
   mkRow 2 (some "CRASH") (some .garbage)]

/-- A store holding a single `INFO` row: nonempty, but with no
`API_ERROR`/`CRASH` rows. -/
def demoInfo : List LogRow := [mkRow 1 (some "INFO") (some (.valid 0))]

/-- A model fit that labels every window normal. -/
def fpAll1 : List Nat → List Int := fun cs => cs.map (fun _ => 1)

/-- A model fit that labels every window anomalous. -/
def fpAllNeg : List Nat → List Int := fun cs => cs.map (fun _ => (-1 : Int))

/-- A cleaned `CRASH` row at instant `t`. -/
def mkClean (i t : Nat) : CleanRow :=
  ⟨i, some "CRASH", none, none, none, none, t, "unknown"⟩

/-- Five cleaned rows in five distinct hours: a five-window series, long
enough to reach the dashboard's model fit. -/
def rows5 : List CleanRow :=
  [mkClean 1 0, mkClean 2 3600, mkClean 3 7200, mkClean 4 10800,
   mkClean 5 14400]

/-! ### Shared helper lemmas -/

/-- Both branches of the dashboard detector return the grouped series as
the first component. -/
theorem detect_anomalies_fst (fp : List Nat → List Int)
    (rows : List CleanRow) :
    (detect_anomalies fp rows).1
      = groupByHour (rows.map (fun r => floorHour r.received_at)) := by
  unfold detect_anomalies
  by_cases h :
      (groupByHour (rows.map (fun r => floorHour r.received_at))).length < 5 <;>
    simp [h]

/-- `fixUser` never returns the empty string. -/
theorem fixUser_ne_empty (o : Option String) : fixUser o ≠ "" := by
  cases o with
  | none => simp [fixUser]
  | some s =>
      by_cases h : s = "" <;> simp [fixUser, h]

/-- Whether a `received_at` cell parses to an instant. -/
def validTime : Option TimeStr → Bool
  | some (.valid _) => true
  | _ => false

/-- Rows whose `received_at` does not parse contribute nothing to
`load_logs`: coercing them to `NaT` and dropping them is the same as
never having read them. -/
theorem load_logs_drops_invalid (rows : List LogRow) :
    load_logs rows
      = load_logs (rows.filter (fun r => validTime r.received_at)) := by
  induction rows with
  | nil => rfl
  | cons r rs ih =>
      rcases hra : r.received_at with _ | ts
      · simpa [load_logs, List.filter_cons, cleanRow, validTime, hra] using ih
      · cases ts <;>
          simpa [load_logs, List.filter_cons, cleanRow, validTime, hra] using ih

/-- The strict datetime parse succeeds exactly when no row carries an
unparseable `received_at`. -/
theorem serverParseHours_isOk {rows : List LogRow}
    (h : ∀ r ∈ rows, r.received_at ≠ some .garbage) :
    ∃ hs, serverParseHours rows = .ok hs := by
  induction rows with
  | nil => exact ⟨[], rfl⟩
  | cons r rs ih =>
      obtain ⟨hs, hhs⟩ := ih (fun x hx => h x (List.mem_cons_of_mem _ hx))
      rcases hra : r.received_at with _ | ts
      · exact ⟨hs, by simp [serverParseHours, hra, hhs]⟩
      · cases ts with
        | valid t =>
            exact ⟨floorHour t :: hs,
              by simp [serverParseHours, hra, hhs, Except.map]⟩
        | natLike => exact ⟨hs, by simp [serverParseHours, hra, hhs]⟩
        | garbage =>
            exact absurd (hra ▸ rfl : r.received_at = some .garbage)
              (h r (List.mem_cons_self r rs))

/-- When the store is nonempty, error-typed rows exist and every one of
them parses, the `/anomaly` handler returns exactly the windows the model
labels `-1` — the fit happens regardless of how few windows exist. -/
theorem anomaly_endpoint_fits_model {fp : List Nat → List Int}
    {logs : List LogRow} {hours : List Nat}
    (h1 : logs ≠ []) (h2 : serverFilterTypes logs ≠ [])
    (h3 : serverParseHours (serverFilterTypes logs) = .ok hours) :
    anomaly_endpoint fp logs
      = .ok (.anomalies
          ((((groupByHour hours).zip
              (fp ((groupByHour hours).map (fun p => p.2)))).filter
            (fun q => q.2 == -1)).map (fun q => q.1))) := by
  unfold anomaly_endpoint
  rw [if_neg (by simp [List.isEmpty_iff, h1]),
    if_neg (by simp [List.isEmpty_iff, h2]), h3]
  rfl

/-- Membership survives the date-range filter backwards. -/
theorem mem_of_filterByDateRange {range : Option (Nat × Nat)}
    {rows : List CleanRow} {r : CleanRow}
    (h : r ∈ filterByDateRange range rows) : r ∈ rows := by
  cases range with
  | none => exact h
  | some p =>
      rcases p with ⟨s, e⟩
      exact (List.mem_filter.mp h).1

/-- Membership survives the user filter backwards. -/
theorem mem_of_filterByUser {sel : Option String}
    {rows : List CleanRow} {r : CleanRow}
    (h : r ∈ filterByUser sel rows) : r ∈ rows := by
  cases sel with
  | none => exact h
  | some u => exact (List.mem_filter.mp h).1

/-- Membership survives the type filter backwards. -/
theorem mem_of_filterByType {sel : Option String}
    {rows : List CleanRow} {r : CleanRow}
    (h : r ∈ filterByType sel rows) : r ∈ rows := by
  cases sel with
  | none => exact h
  | some t => exact (List.mem_filter.mp h).1

/-- Membership survives the search filter backwards. -/
theorem mem_of_searchLogs {kw : String} {rows : List CleanRow}
    {r : CleanRow} (h : r ∈ searchLogs kw rows) : r ∈ rows := by
  unfold searchLogs at h
  by_cases hk : kw = ""
  · simpa [hk] using h
  · rw [if_neg hk] at h
    exact (List.mem_filter.mp h).1

/-- Every row `load_logs` emits carries a `fixUser`-produced user. -/
theorem user_of_mem_load_logs {rows : List LogRow} {r : CleanRow}
    (h : r ∈ load_logs rows) : ∃ o, r.user = fixUser o := by
  rcases List.mem_filterMap.mp h with ⟨a, _, ha⟩
  unfold cleanRow at ha
  rcases hra : a.received_at with _ | ts
  · rw [hra] at ha; exact absurd ha (by simp)
  · cases ts with
    | valid t =>
        rw [hra] at ha
        obtain rfl := Option.some.inj ha
        exact ⟨a.user, rfl⟩
    | natLike => rw [hra] at ha; exact absurd ha (by simp)
    | garbage => rw [hra] at ha; exact absurd ha (by simp)

/-! ### Claim theorems -/

/-- C2: for every record set whose timestamps are all valid (a
`CleanRow` list is valid by construction), the window counts produced by
grouping sum to the number of input records — at the dashboard call site
and for the server's grouping of parsed hours alike: no record is
double-counted and none is dropped. -/
theorem claim_C2_count_conservation (fp : List Nat → List Int)
    (rows : List CleanRow) :
    (((detect_anomalies fp rows).1).map (fun p => p.2)).sum = rows.length
    ∧ ∀ hours : List Nat,
        ((groupByHour hours).map (fun p => p.2)).sum = hours.length := by
  refine ⟨?_, fun hours => sum_counts_groupByHour hours⟩
  rw [detect_anomalies_fst]
  simpa using sum_counts_groupByHour (rows.map (fun r => floorHour r.received_at))

/-- C4, counterexample: a submission missing every required field is not
rejected — the `/log` handler stamps `received_at`, inserts a row of
NULLs (with `str(None)` as the stored timestamp text) and acknowledges
with the 200 success body, so the record does reach the store. -/
theorem claim_C4_counterexample :
    receive_log "2025-01-01T00:00:00" []
        (some ⟨none, none, none, none, none, none⟩)
      = ([⟨none, none, none, none, "None", some "2025-01-01T00:00:00"⟩],
         .success200)
    ∧ (receive_log "2025-01-01T00:00:00" []
        (some ⟨none, none, none, none, none, none⟩)).2 ≠ .error500 := by
  exact ⟨rfl, by decide⟩

/-- C4, amended: the ingestion boundary validates nothing. Any parsed
JSON body — whatever fields it misses — is inserted as a row built from
`dict.get` (missing fields stored as NULL) and acknowledged with the 200
success body; the only error path is the catch-all 500 for a body the
JSON parser rejects (a server error, not a client error), in which case
no row is inserted. -/
theorem claim_C4_amended (now : String) (store : List StoredRow)
    (data : Submission) :
    receive_log now store (some data)
      = (store ++ [⟨data.type, data.message, data.device,
          data.android_version, pyStr data.timestamp, some now⟩],
         .success200)
    ∧ receive_log now store none = (store, .error500) :=
  ⟨rfl, rfl⟩

/-- C5, counterexample: on an empty store the `/anomaly` endpoint
answers `404 {"error": "No logs found"}` — the empty-data case is
reported as an error response, not as a distinct "no data" result. -/
theorem claim_C5_counterexample :
    anomaly_endpoint fpAll1 ([] : List LogRow) = .ok .errNoLogs
    ∧ isErrorResponse .errNoLogs = true :=
  ⟨rfl, rfl⟩

/-- C5, amended: the `/anomaly` endpoint answers the 404 error body when
the store is empty; when rows exist but none has type `API_ERROR` or
`CRASH` it answers the non-error 200 "no data" message; and when
error-typed rows exist whose timestamps all parse it answers 200 with
the anomalous `(window_start, count)` pairs. Only the empty-store case
is reported as an error. -/
theorem claim_C5_amended (fp : List Nat → List Int) (logs : List LogRow) :
    (logs = [] → anomaly_endpoint fp logs = .ok .errNoLogs)
    ∧ (logs ≠ [] → serverFilterTypes logs = [] →
        anomaly_endpoint fp logs = .ok .msgNoErrorTypes)
    ∧ (logs ≠ [] → serverFilterTypes logs ≠ [] →
        (∀ r ∈ serverFilterTypes logs, r.received_at ≠ some .garbage) →
        ∃ xs, anomaly_endpoint fp logs = .ok (.anomalies xs))
    ∧ isErrorResponse .msgNoErrorTypes = false
    ∧ ∀ xs, isErrorResponse (.anomalies xs) = false := by
  refine ⟨?_, ?_, ?_, rfl, fun xs => rfl⟩
  · rintro rfl
    rfl
  · intro h1 h2
    unfold anomaly_endpoint
    rw [if_neg (by simp [List.isEmpty_iff, h1]), if_pos (by simp [List.isEmpty_iff, h2])]
  · intro h1 h2 h3
    obtain ⟨hs, hhs⟩ := serverParseHours_isOk h3
    exact ⟨_, anomaly_endpoint_fits_model h1 h2 hhs⟩

/-- C5, witness for the amended claim at concrete stores: the empty
store yields the 404 error body and a store holding only an `INFO` row
yields the 200 "no data" message. -/
theorem claim_C5_witness :
    anomaly_endpoint fpAll1 ([] : List LogRow) = .ok .errNoLogs
    ∧ anomaly_endpoint fpAll1 demoInfo = .ok .msgNoErrorTypes :=
  ⟨(claim_C5_amended fpAll1 []).1 rfl,
   (claim_C5_amended fpAll1 demoInfo).2.1 (by decide) (by decide)⟩

/-- C6: for every accepted submission the stored row's `received_at` is
exactly the server clock value `now` stamped at acceptance, and the
handler's result does not depend on any client-supplied `received_at`:
submissions differing only in that field are stored identically. -/
theorem claim_C6_server_clock (now : String) (store : List StoredRow)
    (data : Submission) :
    (∃ r : StoredRow, (receive_log now store (some data)).1 = store ++ [r]
        ∧ r.received_at = some now)
    ∧ ∀ ra : Option String,
        receive_log now store (some { data with received_at := ra })
          = receive_log now store (some data) :=
  ⟨⟨⟨data.type, data.message, data.device, data.android_version,
      pyStr data.timestamp, some now⟩, rfl, rfl⟩,
   fun _ => rfl⟩

/-- C9: aggregating the empty record sequence yields the empty window
sequence, and the dashboard detector applied to no records returns the
empty grouped series and no anomalies — no error, for any model fit. -/
theorem claim_C9_empty_aggregate (fp : List Nat → List Int) :
    groupByHour [] = [] ∧ detect_anomalies fp [] = ([], [])
    ∧ load_logs [] = [] :=
  ⟨rfl, rfl, rfl⟩

/-- C1, counterexample: the `/anomaly` handler in `log_server.py` has no
minimum-window check. On a store of two `CRASH` rows in two distinct
hours — a two-window series, fewer than 5 — it still fits the model and
returns whatever the fit labels `-1`: with a fit labelling both windows
anomalous it answers a non-empty anomaly set, so the detector does not
return the empty set at this call site. -/
theorem claim_C1_counterexample :
    serverParseHours (serverFilterTypes demoLogs2) = .ok [0, 3600]
    ∧ (groupByHour [0, 3600]).length < 5
    ∧ anomaly_endpoint fpAllNeg demoLogs2
        = .ok (.anomalies [(0, 1), (3600, 1)]) :=
  ⟨rfl, by decide, rfl⟩

/-- C1, amended: only the dashboard's `detect_anomalies` applies the
5-window threshold — it returns the empty anomaly set whenever the
grouped series has fewer than 5 windows. The server's `/anomaly`
endpoint applies no such threshold: whenever error-typed rows exist and
parse, it returns exactly the windows the fitted model labels `-1`,
regardless of how few windows there are. -/
theorem claim_C1_amended (fp : List Nat → List Int) (rows : List CleanRow)
    (logs : List LogRow) :
    ((groupByHour (rows.map (fun r => floorHour r.received_at))).length < 5 →
      (detect_anomalies fp rows).2 = [])
    ∧ ∀ hours : List Nat, logs ≠ [] → serverFilterTypes logs ≠ [] →
        serverParseHours (serverFilterTypes logs) = .ok hours →
        anomaly_endpoint fp logs
          = .ok (.anomalies ((((groupByHour hours).zip
              (fp ((groupByHour hours).map (fun p => p.2)))).filter
              (fun q => q.2 == -1)).map (fun q => q.1))) := by
  refine ⟨fun h => ?_,
    fun hours h1 h2 h3 => anomaly_endpoint_fits_model h1 h2 h3⟩
  unfold detect_anomalies
  simp [h]

/-- C1, witness: the dashboard branch at the empty series (0 windows)
and the server branch at the concrete two-window store. -/
theorem claim_C1_witness :
    (detect_anomalies fpAllNeg ([] : List CleanRow)).2 = []
    ∧ anomaly_endpoint fpAllNeg demoLogs2
        = .ok (.anomalies ((((groupByHour [0, 3600]).zip
            (fpAllNeg ((groupByHour [0, 3600]).map (fun p => p.2)))).filter
            (fun q => q.2 == -1)).map (fun q => q.1))) :=
  ⟨(claim_C1_amended fpAllNeg [] demoLogs2).1 (by decide),
   (claim_C1_amended fpAllNeg [] demoLogs2).2 [0, 3600] (by decide)
     (by decide) rfl⟩

/-- C3, counterexample: at the server call site a single unparseable
`received_at` makes the whole `/anomaly` request raise (Flask answers
500), even though a valid `CRASH` record is present — the record is not
merely excluded, the pipeline fails because of it. The same valid record
alone is processed fine. -/
theorem claim_C3_counterexample :
    anomaly_endpoint fpAllNeg demoMixed = .error "unparseable received_at"
    ∧ anomaly_endpoint fpAllNeg [mkRow 1 (some "CRASH") (some (.valid 0))]
        = .ok (.anomalies [(0, 1)]) :=
  ⟨rfl, rfl⟩

/-- C3, amended: at the dashboard call site, rows whose `received_at` is
missing, empty or unparseable are coerced to `NaT` and dropped before
any window is built, and neither aggregation nor detection fails (they
are total). At the server call site only NULL and `NaT`-like cells are
silently excluded; the request succeeds exactly when no error-typed row
carries a hard-unparseable `received_at`. -/
theorem claim_C3_amended (rows : List LogRow) (fp : List Nat → List Int)
    (logs : List LogRow) :
    load_logs rows
        = load_logs (rows.filter (fun r => validTime r.received_at))
    ∧ ((∀ r ∈ serverFilterTypes logs, r.received_at ≠ some .garbage) →
        ∃ resp, anomaly_endpoint fp logs = .ok resp) := by
  refine ⟨load_logs_drops_invalid rows, fun h => ?_⟩
  by_cases h1 : logs = []
  · subst h1
    exact ⟨.errNoLogs, rfl⟩
  · by_cases h2 : serverFilterTypes logs = []
    · refine ⟨.msgNoErrorTypes, ?_⟩
      unfold anomaly_endpoint
      rw [if_neg (by simp [List.isEmpty_iff, h1]),
        if_pos (by simp [List.isEmpty_iff, h2])]
    · obtain ⟨hs, hhs⟩ := serverParseHours_isOk h
      exact ⟨_, anomaly_endpoint_fits_model h1 h2 hhs⟩

/-- C3, witness: the dashboard equality on the mixed valid/garbage rows,
and a successful server response on the all-valid store. -/
theorem claim_C3_witness :
    load_logs demoMixed
        = load_logs (demoMixed.filter (fun r => validTime r.received_at))
    ∧ ∃ resp, anomaly_endpoint fpAll1 demoLogs2 = .ok resp :=
  ⟨(claim_C3_amended demoMixed fpAll1 demoLogs2).1,
   (claim_C3_amended demoMixed fpAll1 demoLogs2).2 (by decide)⟩

/-- C7, counterexample: the dashboard's `detect_anomalies(df)` takes no
seed argument — `IsolationForest(contamination=0.2)` is constructed
without `random_state` — so nothing ties two runs on the same series to
the same fitted model. Two fits the code permits on the very same
five-window series produce different anomaly sets: the claimed
same-seed/same-output reproducibility has no seed to hold on to and the
output is not determined by the series. -/
theorem claim_C7_counterexample :
    (detect_anomalies fpAll1 rows5).2 = []
    ∧ (detect_anomalies fpAllNeg rows5).2
        = [(0, 1), (3600, 1), (7200, 1), (10800, 1), (14400, 1)]
    ∧ (detect_anomalies fpAll1 rows5).2 ≠ (detect_anomalies fpAllNeg rows5).2 :=
  ⟨by decide, by decide, by decide⟩

/-- C7, amended: no call site exposes a seed parameter. The server
hardcodes `random_state=42` (a fixed, not optional, seed), while the
dashboard detector is unseeded and its anomaly set genuinely depends on
the model fit: there are two admissible fits of the same input series
with different anomaly sets. -/
theorem claim_C7_amended :
    ∃ (fp1 fp2 : List Nat → List Int) (rows : List CleanRow),
      (detect_anomalies fp1 rows).2 ≠ (detect_anomalies fp2 rows).2 :=
  ⟨fpAll1, fpAllNeg, rows5, by decide⟩

/-- C8: the aggregation emits a window for hour `h` exactly when some
record's `received_at` floors into `h`, and every emitted window has
count at least 1 — gaps are never zero-filled. -/
theorem claim_C8_window_iff_record (fp : List Nat → List Int)
    (rows : List CleanRow) (h : Nat) :
    ((∃ c, (h, c) ∈ (detect_anomalies fp rows).1)
        ↔ ∃ r ∈ rows, floorHour r.received_at = h)
    ∧ ∀ p ∈ (detect_anomalies fp rows).1, 1 ≤ p.2 := by
  rw [detect_anomalies_fst]
  constructor
  · constructor
    · rintro ⟨c, hc⟩
      rcases mem_groupByHour.mp hc with ⟨hmem, _⟩
      rcases List.mem_map.mp hmem with ⟨r, hr, hfr⟩
      exact ⟨r, hr, hfr⟩
    · rintro ⟨r, hr, hfr⟩
      refine ⟨(rows.map (fun x => floorHour x.received_at)).count h, ?_⟩
      refine mem_groupByHour.mpr ⟨List.mem_map.mpr ⟨r, hr, hfr⟩, ?_⟩
      rfl
  · intro p hp
    exact count_pos_of_mem_groupByHour hp

/-- C8, witness: on the concrete five-window series, hour 0 is emitted
because a record floors into it, and the emitted window `(0, 1)` has a
positive count. -/
theorem claim_C8_witness :
    (∃ c, ((0 : Nat), c) ∈ (detect_anomalies fpAll1 rows5).1)
    ∧ 1 ≤ ((0 : Nat), (1 : Nat)).2 :=
  ⟨(claim_C8_window_iff_record fpAll1 rows5 0).1.mpr
      ⟨mkClean 1 0, by decide, rfl⟩,
   (claim_C8_window_iff_record fpAll1 rows5 0).2 (0, 1) (by decide)⟩

/-- C10: every record the dashboard operates on after loading — through
the search box and the type, user and date-range filters, hence the
table, charts, aggregation and CSV export — has a non-empty `user`:
null and empty users were replaced by `"unknown"` in `load_logs`. -/
theorem claim_C10_user_nonempty (kw : String) (ty usr : Option String)
    (range : Option (Nat × Nat)) (rows : List LogRow) (r : CleanRow)
    (h : r ∈ dashboardView kw ty usr range rows) : r.user ≠ "" := by
  unfold dashboardView at h
  obtain ⟨o, ho⟩ := user_of_mem_load_logs (mem_of_searchLogs
    (mem_of_filterByType (mem_of_filterByUser (mem_of_filterByDateRange h))))
  rw [ho]
  exact fixUser_ne_empty o

/-- C10, witness: the cleaned form of a row stored with a NULL user sits
in the unfiltered dashboard view and carries the non-empty `"unknown"`. -/
theorem claim_C10_witness :
    (⟨1, some "CRASH", none, none, none, none, 0, "unknown"⟩ : CleanRow).user
      ≠ "" :=
  claim_C10_user_nonempty "" none none none
    [mkRow 1 (some "CRASH") (some (.valid 0))]
    ⟨1, some "CRASH", none, none, none, none, 0, "unknown"⟩ (by decide)

end LogMonitor
